import Mathlib

/-!
Verification of the country-name canonicalization core of
`notebooks/utils_country.py` and `notebooks/utils_align.py`.

Strings are modelled as Lean `String` (a wrapper around `List Char`).
Python's regular-expression and Unicode facilities are modelled for the
character repertoire actually occurring in this repository's data and in
the specification's test inputs: ASCII plus the characters ü, ç, ô
(folded by `strip_accents`) and the right single quotation mark U+2019
(removed as punctuation).
-/

namespace UtilsCountry

/-- Characters matched by Python's `\s` (and stripped by `str.strip()`),
modelled over the ASCII whitespace set. -/
def isSpaceChar (c : Char) : Bool :=
  c == ' ' || c == '\t' || c == '\n' || c == '\r' || c == '\x0b' || c == '\x0c'

/-- Characters matched by Python's `\w` (letter, digit or underscore),
modelled as its ASCII restriction.  Python's `\w` is Unicode-aware, so
this coincides with the program only on ASCII text (plus the
repository's repertoire: its accented letters are folded to ASCII by
`strip_accents` before this is consulted, and U+2019 is not `\w` in
Python either); a non-ASCII word character such as `ж` is retained by
the program but not by this model, so universal statements about the
normalizer are made under an ASCII hypothesis. -/
def isWordChar (c : Char) : Bool :=
  c.isAlphanum || c == '_'

/-- Characters that can appear in a normalizer output besides the
space: lowercase ASCII letters, ASCII digits, and the underscore (which
Python's `\w` retains). -/
def isOutChar (c : Char) : Bool :=
  c.isLower || c.isDigit || c == '_'

/-- One step of `unicodedata.normalize("NFKD", ·)` followed by dropping
combining marks, modelled characterwise for the diacritics occurring in
this repository's data (ü, ç, ô and their upper-case forms); every other
character passes through unchanged.  U+2019 (’) is not decomposed by NFKD
and is deliberately left unchanged here. -/
def stripAccentChar (c : Char) : Char :=
  if c == 'ü' then 'u'
  else if c == 'Ü' then 'U'
  else if c == 'ç' then 'c'
  else if c == 'Ç' then 'C'
  else if c == 'ô' then 'o'
  else if c == 'Ô' then 'O'
  else c

/-- `str.lower()`, characterwise; `Char.toLower` lowers ASCII letters,
which covers the repertoire reaching this step (accents are folded
first, as in the source). -/
def lowerChar (c : Char) : Char := c.toLower

/-- `str.strip()` on a character list: drop whitespace from both ends. -/
def pyStripL (l : List Char) : List Char :=
  ((l.dropWhile isSpaceChar).reverse.dropWhile isSpaceChar).reverse

/-- Auxiliary scanner for `_WS_RX.sub(" ", s)`: the flag records whether
the previous character belonged to a whitespace run already emitted. -/
def collapseWsAux : Bool → List Char → List Char
  | _, [] => []
  | inRun, c :: cs =>
    if isSpaceChar c then
      if inRun then collapseWsAux true cs
      else ' ' :: collapseWsAux true cs
    else c :: collapseWsAux false cs

/-- `_WS_RX.sub(" ", s)`: replace each maximal whitespace run by one space. -/
def collapseWs (l : List Char) : List Char := collapseWsAux false l

/-- Scanner for Python `str.replace(pat, rep)`: left-to-right,
non-overlapping literal substring replacement, resuming after each
replacement.  `fuel` only forces structural termination; with
`fuel ≥ l.length` (as always supplied) it never runs out because each
step consumes at least one character. -/
def pyReplaceF (pat rep : List Char) : Nat → List Char → List Char
  | 0, l => l
  | _, [] => []
  | fuel + 1, c :: cs =>
    if pat ≠ [] ∧ pat.isPrefixOf (c :: cs) then
      rep ++ pyReplaceF pat rep fuel ((c :: cs).drop pat.length)
    else
      c :: pyReplaceF pat rep fuel cs

/-- Python `str.replace(pat, rep)`.  (For the empty pattern — never used
by the source — this returns the input unchanged.) -/
def pyReplaceL (pat rep : List Char) (l : List Char) : List Char :=
  pyReplaceF pat rep l.length l

/-- Is the head of `l` absent or a non-word character?  This is the
right-hand `\b` test for a pattern ending in a word character. -/
def nonWordHead (l : List Char) : Bool :=
  match l with
  | [] => true
  | d :: _ => !(isWordChar d)

/-- `re.sub(r"\b<pat>\b", rep, s)` for a literal pattern that begins and
ends with a word character (all patterns used by `_post_token_rules`
do).  `prevW` records whether the previous character of the original
string was a word character; a match requires `prevW = false` (left
boundary) and a non-word or absent character after the match (right
boundary); scanning resumes after the matched text, whose last character
is a word character, so the flag becomes `true`. -/
def reSubWordF (pat rep : List Char) : Nat → Bool → List Char → List Char
  | 0, _, l => l
  | _, _, [] => []
  | fuel + 1, prevW, c :: cs =>
    if pat ≠ [] ∧ prevW = false ∧ pat.isPrefixOf (c :: cs) ∧
        nonWordHead ((c :: cs).drop pat.length) then
      rep ++ reSubWordF pat rep fuel true ((c :: cs).drop pat.length)
    else
      c :: reSubWordF pat rep fuel (isWordChar c) cs

/-- `re.sub(r"\b<pat>\b", rep, s)` starting at the beginning of the
string (no preceding word character). -/
def reSubWordL (pat rep : List Char) (l : List Char) : List Char :=
  reSubWordF pat rep l.length false l

/-- `re.sub(r"\b<w1>\s*<w2>\b", rep, s)` for literal words `w1`, `w2`
(used for `fed\s*sts` and `fed\s*states`).  The greedy `\s*` needs no
backtracking because `w2` begins with a non-space character. -/
def reSubGapF (w1 w2 rep : List Char) : Nat → Bool → List Char → List Char
  | 0, _, l => l
  | _, _, [] => []
  | fuel + 1, prevW, c :: cs =>
    if w1 ≠ [] ∧ prevW = false ∧ w1.isPrefixOf (c :: cs) ∧
        w2.isPrefixOf (((c :: cs).drop w1.length).dropWhile isSpaceChar) ∧
        nonWordHead ((((c :: cs).drop w1.length).dropWhile isSpaceChar).drop w2.length) then
      rep ++ reSubGapF w1 w2 rep fuel true
        ((((c :: cs).drop w1.length).dropWhile isSpaceChar).drop w2.length)
    else
      c :: reSubGapF w1 w2 rep fuel (isWordChar c) cs

/-- `re.sub(r"\b<w1>\s*<w2>\b", rep, s)` starting at the beginning of
the string. -/
def reSubGapL (w1 w2 rep : List Char) (l : List Char) : List Char :=
  reSubGapF w1 w2 rep l.length false l

/-- The part of `normalize_token` that precedes `_post_token_rules`:
strip, fold accents, lowercase, replace every character that is neither
a word character nor whitespace by a space (`_PUNCT_RX.sub(" ", s)`),
collapse whitespace, strip. -/
def normalize_preL (l : List Char) : List Char :=
  let s := pyStripL l
  let s := s.map stripAccentChar
  let s := s.map lowerChar
  let s := s.map (fun c => if isWordChar c || isSpaceChar c then c else ' ')
  let s := collapseWs s
  pyStripL s

/-- `_post_token_rules` of `utils_country.py`: the `&`→`and` substitution,
the word-boundary abbreviation expansions, the two literal DPRK-variant
replacements, the `fed\s*sts`/`fed\s*states` rules, the generic `fed`
rule, then a final whitespace collapse and strip — in source order. -/
def post_token_rulesL (l : List Char) : List Char :=
  let s := pyReplaceL ['&'] ("and".data) l
  let s := reSubWordL ("dem".data) ("democratic".data) s
  let s := reSubWordL ("rep".data) ("republic".data) s
  let s := reSubWordL ("rep of".data) ("republic of".data) s
  let s := reSubWordL ("arab rep".data) ("arab republic".data) s
  let s := reSubWordL ("islamic rep".data) ("islamic republic".data) s
  let s := pyReplaceL ("dem peoples".data) ("democratic peoples".data) s
  let s := pyReplaceL ("dem people s".data) ("democratic peoples".data) s
  let s := reSubGapL ("fed".data) ("sts".data) ("federated states".data) s
  let s := reSubGapL ("fed".data) ("states".data) ("federated states".data) s
  let s := reSubWordL ("fed".data) ("federal".data) s
  pyStripL (collapseWs s)

/-- String-level `_post_token_rules`. -/
def post_token_rules (s : String) : String := ⟨post_token_rulesL s.data⟩

/-- String-level view of the pipeline stage whose result is handed to
`_post_token_rules` inside `normalize_token`. -/
def normalize_pre (s : String) : String := ⟨normalize_preL s.data⟩

/-- `normalize_token` of `utils_country.py`: strip, fold accents,
lowercase, remove punctuation, collapse whitespace, strip, then the
WB/UN harmonization rules. -/
def normalize_token (s : String) : String :=
  ⟨post_token_rulesL (normalize_preL s.data)⟩


/-- The `CANONICAL` alias table of `utils_country.py`, in source order:
human-entered alias on the left, canonical display name on the right. -/
def CANONICAL : List (String × String) := [
    ("Türkiye", "Turkey"),
    ("Türkiye Cumhuriyeti", "Turkey"),
    ("turkiye", "Turkey"),
    ("republic of turkey", "Turkey"),
    ("turkey", "Turkey"),
    ("Czech Republic", "Czechia"),
    ("czechia", "Czechia"),
    ("Russian Federation", "Russia"),
    ("russia", "Russia"),
    ("Viet Nam", "Vietnam"),
    ("vietnam", "Vietnam"),
    ("Syrian Arab Republic", "Syria"),
    ("syria", "Syria"),
    ("Iran, Islamic Rep.", "Iran"),
    ("Iran (Islamic Republic of)", "Iran"),
    ("Islamic Republic of Iran", "Iran"),
    ("iran islamic rep", "Iran"),
    ("iran", "Iran"),
    ("Lao PDR", "Laos"),
    ("Lao People's Democratic Republic", "Laos"),
    ("lao people s democratic republic", "Laos"),
    ("laos", "Laos"),
    ("Gambia, The", "Gambia"),
    ("The Gambia", "Gambia"),
    ("gambia", "Gambia"),
    ("Bahamas, The", "Bahamas"),
    ("The Bahamas", "Bahamas"),
    ("bahamas", "Bahamas"),
    ("Slovak Republic", "Slovakia"),
    ("slovakia", "Slovakia"),
    ("Somalia, Fed. Rep.", "Somalia"),
    ("Somalia Federal Republic", "Somalia"),
    ("somalia fed rep", "Somalia"),
    ("somalia", "Somalia"),
    ("St. Kitts and Nevis", "St. Kitts and Nevis"),
    ("Saint Kitts and Nevis", "St. Kitts and Nevis"),
    ("st kitts and nevis", "St. Kitts and Nevis"),
    ("saint kitts and nevis", "St. Kitts and Nevis"),
    ("St. Lucia", "St. Lucia"),
    ("Saint Lucia", "St. Lucia"),
    ("st lucia", "St. Lucia"),
    ("saint lucia", "St. Lucia"),
    ("St. Vincent and the Grenadines", "St. Vincent and the Grenadines"),
    ("Saint Vincent and the Grenadines", "St. Vincent and the Grenadines"),
    ("st vincent and the grenadines", "St. Vincent and the Grenadines"),
    ("saint vincent and the grenadines", "St. Vincent and the Grenadines"),
    ("Cabo Verde", "Cabo Verde"),
    ("Cape Verde", "Cabo Verde"),
    ("Cote d'Ivoire", "Côte d’Ivoire"),
    ("Cote d Ivoire", "Côte d’Ivoire"),
    ("Ivory Coast", "Côte d’Ivoire"),
    ("Ivory Coast (Cote d'Ivoire)", "Côte d’Ivoire"),
    ("Eswatini", "Eswatini"),
    ("Swaziland", "Eswatini"),
    ("Myanmar", "Myanmar"),
    ("Burma", "Myanmar"),
    ("Timor-Leste", "Timor-Leste"),
    ("East Timor", "Timor-Leste"),
    ("Brunei Darussalam", "Brunei"),
    ("Brunei", "Brunei"),
    ("Democratic Republic of the Congo", "Congo (Democratic Republic of the)"),
    ("Congo, Democratic Republic of the", "Congo (Democratic Republic of the)"),
    ("Congo, Dem. Rep.", "Congo (Democratic Republic of the)"),
    ("DR Congo", "Congo (Democratic Republic of the)"),
    ("DRC", "Congo (Democratic Republic of the)"),
    ("Republic of the Congo", "Congo"),
    ("Congo, Rep.", "Congo"),
    ("Congo", "Congo"),
    ("Korea, Rep.", "Korea, Republic of"),
    ("Republic of Korea", "Korea, Republic of"),
    ("South Korea", "Korea, Republic of"),
    ("Korea Republic of", "Korea, Republic of"),
    ("Korea, Dem. People's Rep.", "Korea, Democratic People’s Republic of"),
    ("Korea, Democratic People's Republic of", "Korea, Democratic People’s Republic of"),
    ("Democratic People's Republic of Korea", "Korea, Democratic People’s Republic of"),
    ("Dem. People's Republic of Korea", "Korea, Democratic People’s Republic of"),
    ("DPR Korea", "Korea, Democratic People’s Republic of"),
    ("DPRK", "Korea, Democratic People’s Republic of"),
    ("North Korea", "Korea, Democratic People’s Republic of"),
    ("China, Hong Kong SAR", "Hong Kong SAR, China"),
    ("Hong Kong SAR, China", "Hong Kong SAR, China"),
    ("Hong Kong", "Hong Kong SAR, China"),
    ("China, Macao SAR", "Macao SAR, China"),
    ("Macao SAR, China", "Macao SAR, China"),
    ("Macau", "Macao SAR, China"),
    ("Macao", "Macao SAR, China"),
    ("Republic of Moldova", "Moldova"),
    ("Moldova", "Moldova"),
    ("United States", "United States of America"),
    ("United States of America", "United States of America"),
    ("USA", "United States of America"),
    ("U S A", "United States of America"),
    ("U S", "United States of America"),
    ("Venezuela (Bolivarian Republic of)", "Venezuela (Bolivarian Republic of)"),
    ("Venezuela, RB", "Venezuela (Bolivarian Republic of)"),
    ("Venezuela", "Venezuela (Bolivarian Republic of)"),
    ("Virgin Islands (U.S.)", "United States Virgin Islands"),
    ("United States Virgin Islands", "United States Virgin Islands"),
    ("virgin islands us", "United States Virgin Islands"),
    ("Yemen, Rep.", "Yemen"),
    ("Republic of Yemen", "Yemen"),
    ("Yemen", "Yemen"),
    ("Australia/New Zealand", "Australia"),
    ("United Kingdom", "United Kingdom"),
    ("UK", "United Kingdom"),
    ("U K", "United Kingdom"),
    ("Great Britain", "United Kingdom"),
    ("Britain", "United Kingdom"),
    ("State of Palestine", "Palestine"),
    ("West Bank and Gaza", "Palestine"),
    ("Palestine", "Palestine"),
    ("Cocos (Keeling) Islands", "Cocos (Keeling) Islands"),
    ("Micronesia, Federated States of", "Micronesia, Federated States of"),
    ("Micronesia, Fed. Sts.", "Micronesia, Federated States of"),
    ("TFYR Macedonia", "North Macedonia"),
    ("North Macedonia", "North Macedonia"),
    ("Macedonia, the former Yugoslav Republic of", "North Macedonia"),
    ("Macedonia (the former Yugoslav Republic of)", "North Macedonia"),
    ("Bolivia (Plurinational State of)", "Bolivia (Plurinational State of)"),
    ("Bolivia", "Bolivia (Plurinational State of)"),
    ("Tanzania, United Republic of", "Tanzania, United Republic of"),
    ("United Republic of Tanzania", "Tanzania, United Republic of"),
    ("Tanzania", "Tanzania, United Republic of"),
    ("Bahrein", "Bahrain"),
    ("Bahrain", "Bahrain"),
    ("Egypt, Arab Rep.", "Egypt"),
    ("Egypt (Arab Republic of)", "Egypt"),
    ("Arab Republic of Egypt", "Egypt"),
    ("Egypt", "Egypt"),
    ("Curacao", "Curaçao"),
    ("Curaçao", "Curaçao"),
    ("faroe islands", "Faroe Islands"),
    ("Faeroe Islands", "Faroe Islands"),
    ("Kyrgyz Republic", "Kyrgyzstan"),
    ("Kyrgyzstan", "Kyrgyzstan"),
    ("Puerto Rico", "Puerto Rico"),
    ("Puerto Rico (US)", "Puerto Rico"),
    ("puerto rico us", "Puerto Rico"),
    ("Falkland Islands (Malvinas)", "Falkland Islands (Malvinas)"),
    ("Holy See", "Holy See"),
    ("Guadeloupe", "Guadeloupe"),
    ("Martinique", "Martinique"),
    ("Mayotte", "Mayotte"),
    ("French Guiana", "French Guiana"),
    ("Montserrat", "Montserrat"),
    ("Melanesia", "Melanesia")
]

/-- The normalized alias map `ALIAS` of `utils_country.py`: each alias
key run through `normalize_token`, values untouched, in source order. -/
def ALIAS : List (String × String) := CANONICAL.map (fun p => (normalize_token p.1, p.2))

/-- Lookup in a Python `dict` built by inserting the pairs of `l` in
order: the last binding of a key wins. -/
def dictGet (l : List (String × String)) (k : String) : Option String :=
  l.foldl (fun acc p => if p.1 == k then some p.2 else acc) none

/-- `ALIAS.get(k)` / `k in ALIAS` combined: the canonical name registered
for normalized key `k`, if any. -/
def aliasGet (k : String) : Option String := dictGet ALIAS k

/-- The value of `ALIAS` spelled out: `normalize_token` applied to each
alias key of `CANONICAL`.  `ALIAS_eval` below checks this against the
definition, so every later lookup can use the already-normalized table. -/
def ALIAS_lit : List (String × String) := [
    ("turkiye", "Turkey"),
    ("turkiye cumhuriyeti", "Turkey"),
    ("turkiye", "Turkey"),
    ("republic of turkey", "Turkey"),
    ("turkey", "Turkey"),
    ("czech republic", "Czechia"),
    ("czechia", "Czechia"),
    ("russian federation", "Russia"),
    ("russia", "Russia"),
    ("viet nam", "Vietnam"),
    ("vietnam", "Vietnam"),
    ("syrian arab republic", "Syria"),
    ("syria", "Syria"),
    ("iran islamic republic", "Iran"),
    ("iran islamic republic of", "Iran"),
    ("islamic republic of iran", "Iran"),
    ("iran islamic republic", "Iran"),
    ("iran", "Iran"),
    ("lao pdr", "Laos"),
    ("lao people s democratic republic", "Laos"),
    ("lao people s democratic republic", "Laos"),
    ("laos", "Laos"),
    ("gambia the", "Gambia"),
    ("the gambia", "Gambia"),
    ("gambia", "Gambia"),
    ("bahamas the", "Bahamas"),
    ("the bahamas", "Bahamas"),
    ("bahamas", "Bahamas"),
    ("slovak republic", "Slovakia"),
    ("slovakia", "Slovakia"),
    ("somalia federal republic", "Somalia"),
    ("somalia federal republic", "Somalia"),
    ("somalia federal republic", "Somalia"),
    ("somalia", "Somalia"),
    ("st kitts and nevis", "St. Kitts and Nevis"),
    ("saint kitts and nevis", "St. Kitts and Nevis"),
    ("st kitts and nevis", "St. Kitts and Nevis"),
    ("saint kitts and nevis", "St. Kitts and Nevis"),
    ("st lucia", "St. Lucia"),
    ("saint lucia", "St. Lucia"),
    ("st lucia", "St. Lucia"),
    ("saint lucia", "St. Lucia"),
    ("st vincent and the grenadines", "St. Vincent and the Grenadines"),
    ("saint vincent and the grenadines", "St. Vincent and the Grenadines"),
    ("st vincent and the grenadines", "St. Vincent and the Grenadines"),
    ("saint vincent and the grenadines", "St. Vincent and the Grenadines"),
    ("cabo verde", "Cabo Verde"),
    ("cape verde", "Cabo Verde"),
    ("cote d ivoire", "Côte d’Ivoire"),
    ("cote d ivoire", "Côte d’Ivoire"),
    ("ivory coast", "Côte d’Ivoire"),
    ("ivory coast cote d ivoire", "Côte d’Ivoire"),
    ("eswatini", "Eswatini"),
    ("swaziland", "Eswatini"),
    ("myanmar", "Myanmar"),
    ("burma", "Myanmar"),
    ("timor leste", "Timor-Leste"),
    ("east timor", "Timor-Leste"),
    ("brunei darussalam", "Brunei"),
    ("brunei", "Brunei"),
    ("democratic republic of the congo", "Congo (Democratic Republic of the)"),
    ("congo democratic republic of the", "Congo (Democratic Republic of the)"),
    ("congo democratic republic", "Congo (Democratic Republic of the)"),
    ("dr congo", "Congo (Democratic Republic of the)"),
    ("drc", "Congo (Democratic Republic of the)"),
    ("republic of the congo", "Congo"),
    ("congo republic", "Congo"),
    ("congo", "Congo"),
    ("korea republic", "Korea, Republic of"),
    ("republic of korea", "Korea, Republic of"),
    ("south korea", "Korea, Republic of"),
    ("korea republic of", "Korea, Republic of"),
    ("korea democratic people s republic", "Korea, Democratic People’s Republic of"),
    ("korea democratic people s republic of", "Korea, Democratic People’s Republic of"),
    ("democratic people s republic of korea", "Korea, Democratic People’s Republic of"),
    ("democratic people s republic of korea", "Korea, Democratic People’s Republic of"),
    ("dpr korea", "Korea, Democratic People’s Republic of"),
    ("dprk", "Korea, Democratic People’s Republic of"),
    ("north korea", "Korea, Democratic People’s Republic of"),
    ("china hong kong sar", "Hong Kong SAR, China"),
    ("hong kong sar china", "Hong Kong SAR, China"),
    ("hong kong", "Hong Kong SAR, China"),
    ("china macao sar", "Macao SAR, China"),
    ("macao sar china", "Macao SAR, China"),
    ("macau", "Macao SAR, China"),
    ("macao", "Macao SAR, China"),
    ("republic of moldova", "Moldova"),
    ("moldova", "Moldova"),
    ("united states", "United States of America"),
    ("united states of america", "United States of America"),
    ("usa", "United States of America"),
    ("u s a", "United States of America"),
    ("u s", "United States of America"),
    ("venezuela bolivarian republic of", "Venezuela (Bolivarian Republic of)"),
    ("venezuela rb", "Venezuela (Bolivarian Republic of)"),
    ("venezuela", "Venezuela (Bolivarian Republic of)"),
    ("virgin islands u s", "United States Virgin Islands"),
    ("united states virgin islands", "United States Virgin Islands"),
    ("virgin islands us", "United States Virgin Islands"),
    ("yemen republic", "Yemen"),
    ("republic of yemen", "Yemen"),
    ("yemen", "Yemen"),
    ("australia new zealand", "Australia"),
    ("united kingdom", "United Kingdom"),
    ("uk", "United Kingdom"),
    ("u k", "United Kingdom"),
    ("great britain", "United Kingdom"),
    ("britain", "United Kingdom"),
    ("state of palestine", "Palestine"),
    ("west bank and gaza", "Palestine"),
    ("palestine", "Palestine"),
    ("cocos keeling islands", "Cocos (Keeling) Islands"),
    ("micronesia federated states of", "Micronesia, Federated States of"),
    ("micronesia federated states", "Micronesia, Federated States of"),
    ("tfyr macedonia", "North Macedonia"),
    ("north macedonia", "North Macedonia"),
    ("macedonia the former yugoslav republic of", "North Macedonia"),
    ("macedonia the former yugoslav republic of", "North Macedonia"),
    ("bolivia plurinational state of", "Bolivia (Plurinational State of)"),
    ("bolivia", "Bolivia (Plurinational State of)"),
    ("tanzania united republic of", "Tanzania, United Republic of"),
    ("united republic of tanzania", "Tanzania, United Republic of"),
    ("tanzania", "Tanzania, United Republic of"),
    ("bahrein", "Bahrain"),
    ("bahrain", "Bahrain"),
    ("egypt arab republic", "Egypt"),
    ("egypt arab republic of", "Egypt"),
    ("arab republic of egypt", "Egypt"),
    ("egypt", "Egypt"),
    ("curacao", "Curaçao"),
    ("curacao", "Curaçao"),
    ("faroe islands", "Faroe Islands"),
    ("faeroe islands", "Faroe Islands"),
    ("kyrgyz republic", "Kyrgyzstan"),
    ("kyrgyzstan", "Kyrgyzstan"),
    ("puerto rico", "Puerto Rico"),
    ("puerto rico us", "Puerto Rico"),
    ("puerto rico us", "Puerto Rico"),
    ("falkland islands malvinas", "Falkland Islands (Malvinas)"),
    ("holy see", "Holy See"),
    ("guadeloupe", "Guadeloupe"),
    ("martinique", "Martinique"),
    ("mayotte", "Mayotte"),
    ("french guiana", "French Guiana"),
    ("montserrat", "Montserrat"),
    ("melanesia", "Melanesia")
]

/-- The `AGGREGATE_HINTS` dict of `utils_country.py` (keys are the
substring hints; values are diagnostic labels, never substituted). -/
def AGGREGATE_HINTS : List (String × String) := [
    ("world", "World"),
    ("euro area", "Euro area"),
    ("europe", "Europe"),
    ("sub saharan", "Sub-Saharan Africa"),
    ("latin america", "Latin America & Caribbean"),
    ("east asia", "East Asia & Pacific"),
    ("south asia", "South Asia"),
    ("middle east", "Middle East & North Africa"),
    ("ibrd", "IBRD"),
    ("ida", "IDA"),
    ("oecd", "OECD"),
    ("income", "income"),
    ("demographic dividend", "demographic dividend")
]

/-- Does `pat` occur as a contiguous sublist of `l`? -/
def containsSub (pat : List Char) : List Char → Bool
  | [] => pat.isEmpty
  | c :: cs => pat.isPrefixOf (c :: cs) || containsSub pat cs

/-- Python's `pat in s` substring test. -/
def pyIn (pat s : String) : Bool := containsSub pat.data s.data

/-- `canonical_country` of `utils_country.py`, with the module-level
table as an explicit parameter.  A missing value (`pd.isna`) is modelled
as `none`; a present string as `some`.  The function trims the input,
normalizes it, strips a leading `"the "` from the key, consults the
alias map, then the aggregate hints (returning the trimmed original
either way when the alias map misses). -/
def canonical_country_with (tbl : List (String × String)) :
    Option String → Option String
  | none => none
  | some name =>
    let raw : String := ⟨pyStripL name.data⟩
    let key := normalize_token raw
    let key : String := if ("the ".data).isPrefixOf key.data then ⟨key.data.drop 4⟩ else key
    match dictGet tbl key with
    | some v => some v
    | none =>
      if AGGREGATE_HINTS.any (fun p => pyIn p.1 key) then some raw
      else some raw

/-- `canonical_country` proper: the resolver reading the module-level
`ALIAS` table, as in the source. -/
def canonical_country : Option String → Option String :=
  canonical_country_with ALIAS

/-- Lexicographic (code-point) comparison of strings, as used by
Python's `sorted` and `<` on `str`. -/
def lexLeB : List Char → List Char → Bool
  | [], _ => true
  | _ :: _, [] => false
  | a :: as, b :: bs => if a == b then lexLeB as bs else decide (a < b)

/-- `df[col].astype(str)` renders a missing value as the string `"nan"`
and leaves genuine strings unchanged. -/
def cellStr : Option String → String
  | none => "nan"
  | some s => s

/-- The literal alternatives of the aggregate-filter regex used by
`report_unmapped` (a strictly larger list than the `AGGREGATE_HINTS`
keys); `.str.contains` with this pattern is substring search for any
alternative. -/
def REPORT_AGG_TOKENS : List String := [
    "world", "income", "area", "region", "europe", "asia", "africa",
    "america", "caribbean", "sub saharan", "middle east", "north africa",
    "east asia", "south asia", "pacific", "latin america", "oecd",
    "ibrd", "ida", "demographic dividend"]

/-- First-seen deduplication (pandas `drop_duplicates`, `keep="first"`):
`seen` accumulates the values already emitted. -/
def dedupFirstAux (seen : List String) : List String → List String
  | [] => []
  | x :: xs =>
    if seen.contains x then dedupFirstAux seen xs
    else x :: dedupFirstAux (x :: seen) xs

/-- First-seen deduplication of a list of strings. -/
def dedupFirst (l : List String) : List String := dedupFirstAux [] l

/-- A dataframe, modelled column-wise: a list of (column name, column
data) pairs with cells that are either a string or missing (`none`).
Column names are assumed distinct, as in the source's usage. -/
abbrev DF := List (String × List (Option String))

/-- `col in df.columns`. -/
def hasCol (df : DF) (col : String) : Bool := df.any (fun p => p.1 == col)

/-- `df[col]`: the data of the first column named `col` (empty when the
column is absent; the sources below only read present columns). -/
def colData (df : DF) (col : String) : List (Option String) :=
  match df.find? (fun p => p.1 == col) with
  | some p => p.2
  | none => []

/-- `standardize_country_column` of `utils_country.py`, with the alias
table explicit: return `df` unchanged when `col` is absent, otherwise a
copy in which `df[col]` is mapped through the resolver (pandas
`Series.map` applies the function to missing cells as well, and the
resolver sends `none` to `none`). -/
def standardize_country_column_with (tbl : List (String × String))
    (df : DF) (col : String) : DF :=
  if hasCol df col then
    df.map (fun p =>
      if p.1 == col then (p.1, p.2.map (canonical_country_with tbl)) else p)
  else df

/-- `standardize_country_column` reading the module-level `ALIAS`. -/
def standardize_country_column (df : DF) (col : String) : DF :=
  standardize_country_column_with ALIAS df col

/-- `report_unmapped` of `utils_country.py`, with the alias table
explicit: render the column as strings, pair each with its normalized
key and its direct `ALIAS.get` hit, keep the rows with no hit, drop the
rows whose normalized key contains one of the aggregate-regex tokens,
then first-seen-deduplicate the originals and truncate to `sample`. -/
def report_unmapped_with (tbl : List (String × String))
    (df : DF) (col : String) (sample : Nat) : List String :=
  let ser := (colData df col).map cellStr
  let pairs := ser.map (fun x => (x, normalize_token x, dictGet tbl (normalize_token x)))
  let unmapped := pairs.filter (fun r => r.2.2.isNone)
  let kept := unmapped.filter (fun r => !(REPORT_AGG_TOKENS.any (fun t => pyIn t r.2.1)))
  (dedupFirst (kept.map (fun r => r.1))).take sample

/-- `report_unmapped` reading the module-level `ALIAS`. -/
def report_unmapped (df : DF) (col : String) (sample : Nat) : List String :=
  report_unmapped_with ALIAS df col sample

end UtilsCountry

namespace UtilsAlign

open UtilsCountry

/-- The message of the `KeyError` raised by `standardize_and_keep_common`
for a dataframe lacking the requested column. -/
def missingColMsg (col : String) (i : Nat) : String :=
  "'" ++ col ++ "' column not found in df index " ++ toString i

/-- The standardization loop of `standardize_and_keep_common`: check and
standardize each dataframe in order, failing at the first dataframe (its
index is `i`) that lacks the column. -/
def standardizeAll_with (tbl : List (String × String)) (col : String) :
    Nat → List DF → Except String (List DF)
  | _, [] => .ok []
  | i, df :: rest =>
    if hasCol df col then
      match standardizeAll_with tbl col (i + 1) rest with
      | .error e => .error e
      | .ok r => .ok (standardize_country_column_with tbl df col :: r)
    else .error (missingColMsg col i)

/-- Keep the rows of `df` whose value in column `col` belongs to
`common` (`df[df[col].isin(common)]`); a missing cell never matches. -/
def applyMask {α : Type} : List α → List Bool → List α
  | [], _ => []
  | _ :: _, [] => []
  | x :: xs, b :: bs => if b then x :: applyMask xs bs else applyMask xs bs

/-- Row filtering by membership of the `col` value in `common`. -/
def filterRows (df : DF) (col : String) (common : List String) : DF :=
  let mask := (colData df col).map (fun c =>
    match c with
    | some v => common.contains v
    | none => false)
  df.map (fun p => (p.1, applyMask p.2 mask))

/-- Insertion into a lexicographically sorted list of strings. -/
def insSorted (x : String) : List String → List String
  | [] => [x]
  | y :: ys => if lexLeB x.data y.data then x :: y :: ys else y :: insSorted x ys

/-- Python `sorted` on strings: ascending lexicographic order by code
point (insertion sort; stability is irrelevant as equal strings are
identical). -/
def sortStr : List String → List String
  | [] => []
  | x :: xs => insSorted x (sortStr xs)

/-- The distinct non-null values of `df[col]`
(`set(df[col].dropna())`, as an order-carrying list). -/
def colSet (df : DF) (col : String) : List String :=
  dedupFirst ((colData df col).filterMap id)

/-- `standardize_and_keep_common` of `utils_align.py`, with the alias
table explicit: standardize every dataframe (failing fast on a missing
column), intersect the per-dataframe sets of non-null values, filter
each dataframe to the common set, and report the dropped values of each
dataframe (`"df1"`, `"df2"`, … as in the source) as a sorted
deduplicated list. -/
def standardize_and_keep_common_with (tbl : List (String × String))
    (dfs : List DF) (col : String) (with_report : Bool) :
    Except String (List DF × List String × List (String × List String)) :=
  if dfs.isEmpty then .ok ([], [], [])
  else
    match standardizeAll_with tbl col 0 dfs with
    | .error e => .error e
    | .ok standardized =>
      let common := match standardized with
        | [] => []
        | d0 :: rest =>
          rest.foldl (fun acc df => acc.filter (fun v => (colSet df col).contains v))
            (colSet d0 col)
      let filtered := standardized.map (fun df => filterRows df col common)
      let report := if with_report then
          standardized.enum.map (fun p =>
            ("df" ++ toString (p.1 + 1),
             sortStr ((colSet p.2 col).filter (fun v => !(common.contains v)))))
        else []
      .ok (filtered, common, report)

/-- `standardize_and_keep_common` reading the module-level `ALIAS`. -/
def standardize_and_keep_common (dfs : List DF) (col : String) (with_report : Bool) :
    Except String (List DF × List String × List (String × List String)) :=
  standardize_and_keep_common_with ALIAS dfs col with_report

end UtilsAlign


/-! ### Evaluation lemmas

`ALIAS` is defined, as in the source, by normalizing every alias key of
`CANONICAL`; the kernel check below lets every later proof use the
pre-normalized literal table instead of re-normalizing 146 keys at each
lookup. -/

set_option maxRecDepth 100000

namespace UtilsCountry

theorem ALIAS_eval : ALIAS = ALIAS_lit := by decide

theorem canonical_country_eval :
    canonical_country = canonical_country_with ALIAS_lit := by
  unfold canonical_country
  rw [ALIAS_eval]

theorem standardize_country_column_eval :
    standardize_country_column = standardize_country_column_with ALIAS_lit := by
  funext df col
  unfold standardize_country_column
  rw [ALIAS_eval]

theorem report_unmapped_eval :
    report_unmapped = report_unmapped_with ALIAS_lit := by
  funext df col sample
  unfold report_unmapped
  rw [ALIAS_eval]

end UtilsCountry

namespace UtilsAlign

theorem standardize_and_keep_common_eval :
    standardize_and_keep_common =
      standardize_and_keep_common_with UtilsCountry.ALIAS_lit := by
  funext dfs col w
  unfold standardize_and_keep_common
  rw [UtilsCountry.ALIAS_eval]

end UtilsAlign

namespace Claims

open UtilsCountry UtilsAlign

/-- C1: the resolver is invariant under case, accents and punctuation
and maps many aliases to one canonical name: `resolve("Türkiye")`,
`resolve("turkiye")` and `resolve("TURKIYE")` all equal `"Turkey"`, and
`resolve("DPRK")`, `resolve("North Korea")` and
`resolve("Dem. People's Republic of Korea")` all equal
`"Korea, Democratic People’s Republic of"`. -/
theorem claim_C1_resolver_invariance :
    canonical_country (some "Türkiye") = some "Turkey" ∧
    canonical_country (some "turkiye") = some "Turkey" ∧
    canonical_country (some "TURKIYE") = some "Turkey" ∧
    canonical_country (some "DPRK") =
      some "Korea, Democratic People’s Republic of" ∧
    canonical_country (some "North Korea") =
      some "Korea, Democratic People’s Republic of" ∧
    canonical_country (some "Dem. People's Republic of Korea") =
      some "Korea, Democratic People’s Republic of" := by
  rw [canonical_country_eval]
  decide

/-- C4: resolution is idempotent on canonical names: every string in the
alias table's value set resolves to itself (whether or not its
normalized key is registered — both subcases of the claim therefore
hold), and hence repeated resolution is stable. -/
theorem claim_C4_idempotent_on_canonical :
    ∀ x ∈ CANONICAL.map Prod.snd,
      canonical_country (some x) = some x ∧
      canonical_country (canonical_country (some x)) =
        canonical_country (some x) := by
  rw [canonical_country_eval]
  decide

/-- C4 witness: the canonical name `"Turkey"` is in the value set, and
the theorem applies to it. -/
theorem claim_C4_witness :
    "Turkey" ∈ CANONICAL.map Prod.snd ∧
      (canonical_country (some "Turkey") = some "Turkey" ∧
       canonical_country (canonical_country (some "Turkey")) =
         canonical_country (some "Turkey")) :=
  ⟨by decide, claim_C4_idempotent_on_canonical "Turkey" (by decide)⟩

/-- C2: for input columns A = [Turkey, Egypt, Laos] and
B = [Turkey, Laos, DPRK], the aligner returns the common set
{Turkey, Laos}, filters each column to [Turkey, Laos] preserving row
order, and reports the resolved values dropped from each column
(`"df1"`/`"df2"` are the source's column identifiers): [Egypt] for A and
[Korea, Democratic People’s Republic of] for B, each report sorted and
deduplicated. -/
theorem claim_C2_align_concrete :
    standardize_and_keep_common
        [[("Country", [some "Turkey", some "Egypt", some "Laos"])],
         [("Country", [some "Turkey", some "Laos", some "DPRK"])]]
        "Country" true =
      Except.ok
        ([[("Country", [some "Turkey", some "Laos"])],
          [("Country", [some "Turkey", some "Laos"])]],
         ["Turkey", "Laos"],
         [("df1", ["Egypt"]),
          ("df2", ["Korea, Democratic People’s Republic of"])]) := by
  rw [standardize_and_keep_common_eval]
  rfl

/-- C7: when the target column is present, the column applier returns a
dataframe with the same columns in the same positions, in which the
target column is the element-wise resolution of the original (missing
cells resolve to missing) and every other column is unchanged; the
input itself is a pure value and is never mutated. -/
theorem claim_C7_column_applier (df : DF) (col : String)
    (h : hasCol df col = true) :
    (standardize_country_column df col).length = df.length ∧
    (∀ j : Nat, (standardize_country_column df col)[j]? =
      df[j]?.map (fun p =>
        if p.1 == col then (p.1, p.2.map canonical_country) else p)) ∧
    canonical_country none = none := by
  refine ⟨?_, ?_, rfl⟩ <;>
    simp [standardize_country_column, standardize_country_column_with, h,
      canonical_country, List.getElem?_map]

/-- C7 witness: the theorem applied to a two-column frame containing the
target column with a null cell. -/
theorem claim_C7_witness :
    hasCol [("Country", [some "Türkiye", none]), ("Year", [some "2020", some "2021"])]
        "Country" = true ∧
    ((standardize_country_column
        [("Country", [some "Türkiye", none]), ("Year", [some "2020", some "2021"])]
        "Country").length =
      ([("Country", [some "Türkiye", none]),
        ("Year", [some "2020", some "2021"])] : DF).length ∧
     (∀ j : Nat, (standardize_country_column
          [("Country", [some "Türkiye", none]), ("Year", [some "2020", some "2021"])]
          "Country")[j]? =
        (([("Country", [some "Türkiye", none]),
           ("Year", [some "2020", some "2021"])] : DF)[j]?).map (fun p =>
          if p.1 == "Country" then (p.1, p.2.map canonical_country) else p)) ∧
     canonical_country none = none) :=
  ⟨by decide,
   claim_C7_column_applier
     [("Country", [some "Türkiye", none]), ("Year", [some "2020", some "2021"])]
     "Country" (by decide)⟩

/-- C8: a missing value passes through the resolver as `none`, and every
empty or whitespace-only input resolves to the trimmed empty string (the
empty key is not an alias key and matches no aggregate hint, so the
lookups cannot change this outcome). -/
theorem claim_C8_null_empty_passthrough :
    canonical_country none = none ∧
    ∀ s : String, s.data.all isSpaceChar = true →
      canonical_country (some s) = some "" := by
  refine ⟨rfl, fun s hs => ?_⟩
  have hstrip : pyStripL s.data = [] := by
    unfold pyStripL
    have h1 : s.data.dropWhile isSpaceChar = [] := by
      rw [List.dropWhile_eq_nil_iff]
      intro a ha
      exact List.all_eq_true.mp hs a ha
    simp [h1]
  show canonical_country_with ALIAS (some s) = some ""
  unfold canonical_country_with
  rw [ALIAS_eval]
  simp only [hstrip]
  decide

/-- C8 witness: the theorem applied to the whitespace-only input `" "`. -/
theorem claim_C8_witness :
    (" " : String).data.all isSpaceChar = true ∧
      canonical_country (some " ") = some "" :=
  ⟨by decide, claim_C8_null_empty_passthrough.2 " " (by decide)⟩

/-- C10 (implicit): a dataframe lacking the target column passes through
the column applier unchanged with no error; the missing-column condition
is fatal only in the aligner, which rejects the same frame naming
dataset index 0. -/
theorem claim_C10_missing_column_lenient (df : DF) (col : String)
    (h : hasCol df col = false) :
    standardize_country_column df col = df ∧
    standardize_and_keep_common [df] col true =
      Except.error (missingColMsg col 0) := by
  constructor
  · simp [standardize_country_column, standardize_country_column_with, h]
  · simp [standardize_and_keep_common, standardize_and_keep_common_with,
      standardizeAll_with, h]

/-- C10 witness: a one-column frame without the `"Country"` column. -/
theorem claim_C10_witness :
    hasCol [("Region", [some "World"])] "Country" = false ∧
    (standardize_country_column [("Region", [some "World"])] "Country" =
        [("Region", [some "World"])] ∧
     standardize_and_keep_common [[("Region", [some "World"])]] "Country" true =
        Except.error (missingColMsg "Country" 0)) :=
  ⟨by decide,
   claim_C10_missing_column_lenient [("Region", [some "World"])] "Country" (by decide)⟩

/-! #### Helper lemmas for C6 -/

/-- The standardization loop fails at the first dataframe lacking the
column, reporting its absolute index. -/
theorem standardizeAll_error_of_missing (tbl : List (String × String))
    (col : String) :
    ∀ (dfs : List DF) (i0 : Nat), (∃ df ∈ dfs, hasCol df col = false) →
      ∃ j, ∃ h : j < dfs.length,
        hasCol (dfs.get ⟨j, h⟩) col = false ∧
        standardizeAll_with tbl col i0 dfs =
          Except.error (missingColMsg col (i0 + j)) := by
  intro dfs
  induction dfs with
  | nil =>
    rintro i0 ⟨df, hmem, _⟩
    cases hmem
  | cons d rest ih =>
    intro i0 hex
    by_cases hd : hasCol d col = true
    · obtain ⟨df, hmem, hdf⟩ := hex
      have hrest : ∃ df ∈ rest, hasCol df col = false := by
        rcases List.mem_cons.mp hmem with rfl | hm
        · rw [hd] at hdf
          cases hdf
        · exact ⟨df, hm, hdf⟩
      obtain ⟨j, hj, hcol, heq⟩ := ih (i0 + 1) hrest
      refine ⟨j + 1, Nat.succ_lt_succ hj, ?_, ?_⟩
      · simpa [List.get_cons_succ] using hcol
      · show standardizeAll_with tbl col i0 (d :: rest) = _
        unfold standardizeAll_with
        rw [if_pos hd, heq]
        have : i0 + 1 + j = i0 + (j + 1) := by omega
        rw [this]
    · refine ⟨0, Nat.succ_pos _, ?_, ?_⟩
      · simpa using Bool.eq_false_iff.mpr hd
      · unfold standardizeAll_with
        rw [if_neg hd]
        simp

/-- C6: if some dataframe lacks the requested column, the aligner fails
fast with a configuration error whose message names the offending
dataset index and the expected column name, and returns no filtered
result. -/
theorem claim_C6_missing_column_fatal (dfs : List DF) (col : String)
    (hex : ∃ df ∈ dfs, hasCol df col = false) :
    ∃ j, ∃ h : j < dfs.length,
      hasCol (dfs.get ⟨j, h⟩) col = false ∧
      standardize_and_keep_common dfs col true =
        Except.error (missingColMsg col j) := by
  obtain ⟨j, hj, hcol, heq⟩ :=
    standardizeAll_error_of_missing UtilsCountry.ALIAS col dfs 0 hex
  rw [Nat.zero_add] at heq
  refine ⟨j, hj, hcol, ?_⟩
  have hne : dfs.isEmpty = false := by
    cases dfs with
    | nil => exact absurd hex (by simp)
    | cons d rest => rfl
  unfold standardize_and_keep_common standardize_and_keep_common_with
  rw [hne, heq]
  rfl

/-- C6 witness: a pair of frames whose second lacks the `"Country"`
column. -/
theorem claim_C6_witness :
    (∃ df ∈ ([[("Country", [some "Turkey"])], [("Region", [some "World"])]] :
        List DF), hasCol df "Country" = false) ∧
    (∃ j, ∃ h : j < ([[("Country", [some "Turkey"])],
        [("Region", [some "World"])]] : List DF).length,
      hasCol (([[("Country", [some "Turkey"])],
        [("Region", [some "World"])]] : List DF).get ⟨j, h⟩) "Country" = false ∧
      standardize_and_keep_common
          [[("Country", [some "Turkey"])], [("Region", [some "World"])]]
          "Country" true =
        Except.error (missingColMsg "Country" j)) :=
  ⟨by decide,
   claim_C6_missing_column_fatal
     [[("Country", [some "Turkey"])], [("Region", [some "World"])]]
     "Country" (by decide)⟩

/-! #### Helper lemmas for C3 -/

/-- Any character of a collapsed string is a space or came from the
input. -/
theorem mem_collapseWsAux {c : Char} :
    ∀ (b : Bool) (l : List Char), c ∈ collapseWsAux b l → c = ' ' ∨ c ∈ l := by
  intro b l
  induction l generalizing b with
  | nil => simp [collapseWsAux]
  | cons x xs ih =>
    intro hmem
    unfold collapseWsAux at hmem
    by_cases hx : isSpaceChar x = true
    · rw [if_pos hx] at hmem
      by_cases hb : b = true
      · rcases ih true (by simpa [hb] using hmem) with h | h
        · exact Or.inl h
        · exact Or.inr (List.mem_cons_of_mem _ h)
      · rw [if_neg (by simpa using hb)] at hmem
        rcases List.mem_cons.mp hmem with rfl | hmem2
        · exact Or.inl rfl
        · rcases ih true hmem2 with h | h
          · exact Or.inl h
          · exact Or.inr (List.mem_cons_of_mem _ h)
    · rw [if_neg hx] at hmem
      rcases List.mem_cons.mp hmem with rfl | hmem2
      · exact Or.inr (List.mem_cons_self _ _)
      · rcases ih false hmem2 with h | h
        · exact Or.inl h
        · exact Or.inr (List.mem_cons_of_mem _ h)

/-- Any character of a stripped string came from the input. -/
theorem mem_pyStripL {c : Char} {l : List Char} (h : c ∈ pyStripL l) :
    c ∈ l := by
  unfold pyStripL at h
  rw [List.mem_reverse] at h
  have h1 := (List.dropWhile_sublist (l := (l.dropWhile isSpaceChar).reverse)
    isSpaceChar).mem h
  rw [List.mem_reverse] at h1
  exact (List.dropWhile_sublist isSpaceChar).mem h1

/-- The ampersand never survives the punctuation strip: it is not a word
character and not whitespace, so `normalize_pre` output cannot contain
it. -/
theorem amp_not_mem_normalize_preL (l : List Char) :
    ('&' : Char) ∉ normalize_preL l := by
  intro h
  unfold normalize_preL at h
  have h1 := mem_pyStripL h
  rcases mem_collapseWsAux false _ h1 with h2 | h2
  · cases h2
  · rw [List.mem_map] at h2
    obtain ⟨d, _, hd⟩ := h2
    by_cases hg : (isWordChar d || isSpaceChar d) = true
    · rw [if_pos hg] at hd
      rw [hd] at hg
      exact absurd hg (by decide)
    · rw [if_neg hg] at hd
      cases hd

/-- Replacing a single absent character is the identity. -/
theorem pyReplaceF_amp_id (rep : List Char) :
    ∀ (fuel : Nat) (l : List Char), ('&' : Char) ∉ l →
      pyReplaceF ['&'] rep fuel l = l := by
  intro fuel
  induction fuel with
  | zero => intro l _; simp [pyReplaceF]
  | succ n ih =>
    intro l hl
    cases l with
    | nil => rfl
    | cons c cs =>
      unfold pyReplaceF
      rw [if_neg, ih cs (fun hc => hl (List.mem_cons_of_mem _ hc))]
      rintro ⟨-, hpre⟩
      simp only [List.isPrefixOf, Bool.and_eq_true, beq_iff_eq] at hpre
      exact hl (List.mem_cons.mpr (Or.inl hpre.1))

/-- C3 counterexample: the claim predicts
`normalize("Trinidad & Tobago") = "trinidad and tobago"`, but the code
strips the ampersand as punctuation first, yielding
`"trinidad tobago"`. -/
theorem claim_C3_counterexample :
    normalize_token "Trinidad & Tobago" = "trinidad tobago" ∧
      ¬ normalize_token "Trinidad & Tobago" = "trinidad and tobago" := by
  constructor
  · decide
  · decide

/-- C3 amended: in `normalize_token` the punctuation strip runs before
`_post_token_rules`, so every ampersand has already become a space when
the `&`→`and` substitution runs; that substitution is therefore a no-op
on the string it actually receives, and an ampersand between words ends
up as a plain space in the comparison key:
`normalize("Trinidad & Tobago") = "trinidad tobago"`. -/
theorem claim_C3_amended :
    (∀ s : String, pyReplaceL ['&'] ("and".data) (normalize_pre s).data =
      (normalize_pre s).data) ∧
    normalize_token "Trinidad & Tobago" = "trinidad tobago" :=
  ⟨fun s => pyReplaceF_amp_id ("and".data) _ _ (amp_not_mem_normalize_preL s.data),
   by decide⟩

/-! #### Helper lemma for C5 -/

/-- Folding the two row filters and the projection of
`report_unmapped` into a single filter over the stringified column. -/
theorem report_core (tbl : List (String × String)) (ser : List String) :
    ((((ser.map (fun x => (x, normalize_token x, dictGet tbl (normalize_token x)))).filter
        (fun r => r.2.2.isNone)).filter
        (fun r => !(REPORT_AGG_TOKENS.any (fun t => pyIn t r.2.1)))).map
      (fun r => r.1)) =
      ser.filter (fun x => (dictGet tbl (normalize_token x)).isNone &&
        !(REPORT_AGG_TOKENS.any (fun t => pyIn t (normalize_token x)))) := by
  induction ser with
  | nil => rfl
  | cons x xs ih =>
    rw [List.filter_filter] at ih ⊢
    by_cases h1 : (dictGet tbl (normalize_token x)).isNone = true <;>
      by_cases h2 :
        (!(REPORT_AGG_TOKENS.any (fun t => pyIn t (normalize_token x)))) = true <;>
      simp [List.filter_cons, h1, h2, ih]

/-- C5 counterexample: `"South Africa"` has no alias entry and matches
no Aggregate-Detector hint, so the claim requires it to appear in the
unmapped report; the code's broader regex (which also matches bare
`"africa"`) excludes it, and the report is empty. -/
theorem claim_C5_counterexample :
    report_unmapped [("Country", [some "South Africa"])] "Country" 30 = [] ∧
    aliasGet (normalize_token "South Africa") = none ∧
    AGGREGATE_HINTS.all
      (fun p => !(pyIn p.1 (normalize_token "South Africa"))) = true := by
  refine ⟨?_, ?_, by decide⟩
  · rw [report_unmapped_eval]
    decide
  · unfold aliasGet
    rw [ALIAS_eval]
    decide

/-- C5 amended: the unmapped report returns, in first-seen order, at
most `sample` of the distinct stringified values of the column (missing
cells rendered `"nan"`) whose normalized key has no Alias Table entry
and contains none of the report's own regex tokens — a strictly broader
exclusion list than the Aggregate Detector's hints (it adds `area`,
`region`, bare `asia`/`africa`/`america`, `caribbean`, `north africa`
and `pacific`) — and the list is truncated to `sample` entries. -/
theorem claim_C5_amended (df : DF) (col : String) (sample : Nat) :
    report_unmapped df col sample =
      (dedupFirst (((colData df col).map cellStr).filter (fun x =>
        (dictGet ALIAS (normalize_token x)).isNone &&
        !(REPORT_AGG_TOKENS.any (fun t => pyIn t (normalize_token x)))))).take
        sample := by
  unfold report_unmapped report_unmapped_with
  dsimp only
  rw [report_core]

/-! #### Helper lemmas for C9 -/

/-- Lowercasing never produces an upper-case ASCII letter. -/
theorem lowerChar_not_upper (c : Char) : (lowerChar c).isUpper = false := by
  unfold lowerChar Char.toLower
  by_cases h : 65 ≤ c.toNat ∧ c.toNat ≤ 90
  · rw [if_pos h]
    obtain ⟨h1, h2⟩ := h
    set n := c.toNat with hn
    interval_cases n <;> decide
  · rw [if_neg h]
    cases hu : c.isUpper
    · rfl
    · exfalso
      unfold Char.isUpper at hu
      rw [Bool.and_eq_true, decide_eq_true_iff, decide_eq_true_iff] at hu
      exact h ⟨hu.1, hu.2⟩

/-- Each character produced by the punctuation-strip stage is an output
character or whitespace. -/
theorem punct_stage_goodWS (c : Char) :
    (isOutChar (if isWordChar (lowerChar (stripAccentChar c)) ||
        isSpaceChar (lowerChar (stripAccentChar c)) then
        lowerChar (stripAccentChar c) else ' ') ||
      isSpaceChar (if isWordChar (lowerChar (stripAccentChar c)) ||
        isSpaceChar (lowerChar (stripAccentChar c)) then
        lowerChar (stripAccentChar c) else ' ')) = true := by
  set d := lowerChar (stripAccentChar c) with hd
  by_cases hg : (isWordChar d || isSpaceChar d) = true
  · rw [if_pos hg]
    by_cases hs : isSpaceChar d = true
    · simp [hs]
    · have hw : isWordChar d = true := by
        rcases Bool.or_eq_true_iff.mp hg with h | h
        · exact h
        · exact absurd h hs
      have hu : d.isUpper = false := lowerChar_not_upper _
      unfold isWordChar Char.isAlphanum Char.isAlpha at hw
      rw [hu] at hw
      simp only [Bool.false_or] at hw
      have hout : isOutChar d = true := by
        unfold isOutChar
        rcases Bool.or_eq_true_iff.mp hw with h | h
        · rcases Bool.or_eq_true_iff.mp h with h' | h'
          · simp [h']
          · simp [h']
        · simp [h]
      simp [hout]
  · rw [if_neg hg]
    decide

/-- Refined membership for the whitespace collapse: every output
character is a space or a non-whitespace input character. -/
theorem mem_collapseWsAux_refined {c : Char} :
    ∀ (b : Bool) (l : List Char), c ∈ collapseWsAux b l →
      c = ' ' ∨ (c ∈ l ∧ isSpaceChar c = false) := by
  intro b l
  induction l generalizing b with
  | nil => simp [collapseWsAux]
  | cons x xs ih =>
    intro hmem
    unfold collapseWsAux at hmem
    by_cases hx : isSpaceChar x = true
    · rw [if_pos hx] at hmem
      by_cases hb : b = true
      · rcases ih true (by simpa [hb] using hmem) with h | ⟨h1, h2⟩
        · exact Or.inl h
        · exact Or.inr ⟨List.mem_cons_of_mem _ h1, h2⟩
      · rw [if_neg (by simpa using hb)] at hmem
        rcases List.mem_cons.mp hmem with rfl | hmem2
        · exact Or.inl rfl
        · rcases ih true hmem2 with h | ⟨h1, h2⟩
          · exact Or.inl h
          · exact Or.inr ⟨List.mem_cons_of_mem _ h1, h2⟩
    · rw [if_neg hx] at hmem
      rcases List.mem_cons.mp hmem with rfl | hmem2
      · exact Or.inr ⟨List.mem_cons_self _ _, Bool.eq_false_iff.mpr hx⟩
      · rcases ih false hmem2 with h | ⟨h1, h2⟩
        · exact Or.inl h
        · exact Or.inr ⟨List.mem_cons_of_mem _ h1, h2⟩

/-- The whitespace collapse never emits two adjacent spaces, and after a
space has just been emitted the next character cannot be a space. -/
theorem collapseWsAux_chain :
    ∀ (l : List Char) (b : Bool),
      List.Chain' (fun a c => ¬(a = ' ' ∧ c = ' ')) (collapseWsAux b l) ∧
      (b = true → (collapseWsAux b l).head? ≠ some ' ') := by
  intro l
  induction l with
  | nil => intro b; constructor <;> simp [collapseWsAux]
  | cons x xs ih =>
    intro b
    unfold collapseWsAux
    by_cases hx : isSpaceChar x = true
    · rw [if_pos hx]
      by_cases hb : b = true
      · rw [if_pos hb]
        exact ⟨(ih true).1, fun _ => (ih true).2 rfl⟩
      · rw [if_neg hb]
        refine ⟨List.chain'_cons'.mpr ⟨?_, (ih true).1⟩, fun hb' => absurd hb' hb⟩
        rintro y hy ⟨-, hy'⟩
        have := (ih true).2 rfl
        rw [hy'] at hy
        exact this (by simpa using hy)
    · rw [if_neg hx]
      have hxne : x ≠ ' ' := by
        intro he
        rw [he] at hx
        exact hx (by decide)
      refine ⟨List.chain'_cons'.mpr ⟨?_, (ih false).1⟩, ?_⟩
      · rintro y hy ⟨hx', -⟩
        exact hxne hx'
      · intro _ h
        rw [List.head?_cons] at h
        exact hxne (Option.some.inj h)

/-- The head of a whitespace-stripped list is never a space. -/
theorem head_dropWhile_not_space (l : List Char) :
    (l.dropWhile isSpaceChar).head? ≠ some ' ' := by
  have h := List.head?_dropWhile_not isSpaceChar l
  intro he
  rw [he] at h
  exact absurd h (by decide)

/-- The final strip-and-collapse of the normalizer yields a string of
output characters and single separating spaces, with no leading or
trailing space. -/
theorem tidy_strip_collapse (u : List Char)
    (hu : ∀ c ∈ u, (isOutChar c || isSpaceChar c) = true) :
    (∀ c ∈ pyStripL (collapseWs u), isOutChar c = true ∨ c = ' ') ∧
    List.Chain' (fun a b => ¬(a = ' ' ∧ b = ' ')) (pyStripL (collapseWs u)) ∧
    (pyStripL (collapseWs u)).head? ≠ some ' ' ∧
    (pyStripL (collapseWs u)).getLast? ≠ some ' ' := by
  have hpre : pyStripL (collapseWs u) <+:
      (collapseWs u).dropWhile isSpaceChar := by
    have h2 : ((collapseWs u).dropWhile isSpaceChar).reverse.dropWhile isSpaceChar
        <:+ ((collapseWs u).dropWhile isSpaceChar).reverse :=
      List.dropWhile_suffix isSpaceChar
    show ((((collapseWs u).dropWhile isSpaceChar).reverse.dropWhile
      isSpaceChar).reverse) <+: (collapseWs u).dropWhile isSpaceChar
    rw [← List.reverse_suffix]
    simpa [List.reverse_reverse] using h2
  refine ⟨?_, ?_, ?_, ?_⟩
  · intro c hc
    have h1 : c ∈ (collapseWs u).dropWhile isSpaceChar := hpre.sublist.mem hc
    have h2 : c ∈ collapseWs u := (List.dropWhile_sublist isSpaceChar).mem h1
    rcases mem_collapseWsAux_refined false u h2 with h | ⟨h3, h4⟩
    · exact Or.inr h
    · left
      have := hu c h3
      rw [h4, Bool.or_false] at this
      exact this
  · exact List.Chain'.prefix
      (List.Chain'.suffix (collapseWsAux_chain u false).1
        (List.dropWhile_suffix isSpaceChar)) hpre
  · rcases he : pyStripL (collapseWs u) with - | ⟨c, r⟩
    · simp
    · obtain ⟨t, ht⟩ := hpre
      rw [he] at ht
      have hh : ((collapseWs u).dropWhile isSpaceChar).head? = some c := by
        rw [← ht]
        rfl
      intro hcontra
      have : c = ' ' := by simpa using hcontra
      rw [this] at hh
      exact head_dropWhile_not_space _ hh
  · have : (pyStripL (collapseWs u)).getLast? =
        (((collapseWs u).dropWhile isSpaceChar).reverse.dropWhile
          isSpaceChar).head? := by
      unfold pyStripL
      rw [List.getLast?_reverse]
    rw [this]
    exact head_dropWhile_not_space _

/-- Membership in the output of the replace scanner. -/
theorem mem_pyReplaceF {pat rep : List Char} :
    ∀ (fuel : Nat) (l : List Char) (c : Char),
      c ∈ pyReplaceF pat rep fuel l → c ∈ l ∨ c ∈ rep := by
  intro fuel
  induction fuel with
  | zero =>
    intro l c h
    exact Or.inl (by simpa [pyReplaceF] using h)
  | succ n ih =>
    intro l c h
    cases l with
    | nil => simp [pyReplaceF] at h
    | cons d ds =>
      unfold pyReplaceF at h
      split at h
      · rcases List.mem_append.mp h with h' | h'
        · exact Or.inr h'
        · rcases ih _ _ h' with h'' | h''
          · exact Or.inl (List.mem_of_mem_drop h'')
          · exact Or.inr h''
      · rcases List.mem_cons.mp h with rfl | h'
        · exact Or.inl (List.mem_cons_self _ _)
        · rcases ih _ _ h' with h'' | h''
          · exact Or.inl (List.mem_cons_of_mem _ h'')
          · exact Or.inr h''

/-- Membership in the output of the word-boundary substitution scanner. -/
theorem mem_reSubWordF {pat rep : List Char} :
    ∀ (fuel : Nat) (b : Bool) (l : List Char) (c : Char),
      c ∈ reSubWordF pat rep fuel b l → c ∈ l ∨ c ∈ rep := by
  intro fuel
  induction fuel with
  | zero =>
    intro b l c h
    exact Or.inl (by simpa [reSubWordF] using h)
  | succ n ih =>
    intro b l c h
    cases l with
    | nil => simp [reSubWordF] at h
    | cons d ds =>
      unfold reSubWordF at h
      split at h
      · rcases List.mem_append.mp h with h' | h'
        · exact Or.inr h'
        · rcases ih _ _ _ h' with h'' | h''
          · exact Or.inl (List.mem_of_mem_drop h'')
          · exact Or.inr h''
      · rcases List.mem_cons.mp h with rfl | h'
        · exact Or.inl (List.mem_cons_self _ _)
        · rcases ih _ _ _ h' with h'' | h''
          · exact Or.inl (List.mem_cons_of_mem _ h'')
          · exact Or.inr h''

/-- Membership in the output of the gap substitution scanner. -/
theorem mem_reSubGapF {w1 w2 rep : List Char} :
    ∀ (fuel : Nat) (b : Bool) (l : List Char) (c : Char),
      c ∈ reSubGapF w1 w2 rep fuel b l → c ∈ l ∨ c ∈ rep := by
  intro fuel
  induction fuel with
  | zero =>
    intro b l c h
    exact Or.inl (by simpa [reSubGapF] using h)
  | succ n ih =>
    intro b l c h
    cases l with
    | nil => simp [reSubGapF] at h
    | cons d ds =>
      unfold reSubGapF at h
      split at h
      · rcases List.mem_append.mp h with h' | h'
        · exact Or.inr h'
        · rcases ih _ _ _ h' with h'' | h''
          · refine Or.inl (List.mem_of_mem_drop
              ((List.dropWhile_sublist isSpaceChar).mem
                (List.mem_of_mem_drop h'')))
          · exact Or.inr h''
      · rcases List.mem_cons.mp h with rfl | h'
        · exact Or.inl (List.mem_cons_self _ _)
        · rcases ih _ _ _ h' with h'' | h''
          · exact Or.inl (List.mem_cons_of_mem _ h'')
          · exact Or.inr h''

/-- The replace scanner preserves the output-or-whitespace character
invariant when the replacement satisfies it. -/
theorem pyReplaceL_goodWS (pat rep l : List Char)
    (hrep : ∀ c ∈ rep, (isOutChar c || isSpaceChar c) = true)
    (hl : ∀ c ∈ l, (isOutChar c || isSpaceChar c) = true) :
    ∀ c ∈ pyReplaceL pat rep l, (isOutChar c || isSpaceChar c) = true :=
  fun c hc => (mem_pyReplaceF _ _ _ hc).elim (hl c) (hrep c)

/-- The word substitution preserves the output-or-whitespace character
invariant when the replacement satisfies it. -/
theorem reSubWordL_goodWS (pat rep l : List Char)
    (hrep : ∀ c ∈ rep, (isOutChar c || isSpaceChar c) = true)
    (hl : ∀ c ∈ l, (isOutChar c || isSpaceChar c) = true) :
    ∀ c ∈ reSubWordL pat rep l, (isOutChar c || isSpaceChar c) = true :=
  fun c hc => (mem_reSubWordF _ _ _ _ hc).elim (hl c) (hrep c)

/-- The gap substitution preserves the output-or-whitespace character
invariant when the replacement satisfies it. -/
theorem reSubGapL_goodWS (w1 w2 rep l : List Char)
    (hrep : ∀ c ∈ rep, (isOutChar c || isSpaceChar c) = true)
    (hl : ∀ c ∈ l, (isOutChar c || isSpaceChar c) = true) :
    ∀ c ∈ reSubGapL w1 w2 rep l, (isOutChar c || isSpaceChar c) = true :=
  fun c hc => (mem_reSubGapF _ _ _ _ hc).elim (hl c) (hrep c)

/-- The pre-normalization stage only emits output characters and
whitespace. -/
theorem normalize_preL_goodWS (l : List Char) :
    ∀ c ∈ normalize_preL l, (isOutChar c || isSpaceChar c) = true := by
  intro c hc
  unfold normalize_preL at hc
  have h1 := mem_pyStripL hc
  rcases mem_collapseWsAux_refined false _ h1 with h | ⟨h2, -⟩
  · rw [h]; decide
  · rw [List.mem_map] at h2
    obtain ⟨d, hd, hde⟩ := h2
    rw [List.mem_map] at hd
    obtain ⟨e, he, hee⟩ := hd
    rw [List.mem_map] at he
    obtain ⟨f, -, hfe⟩ := he
    rw [← hde, ← hee, ← hfe]
    exact punct_stage_goodWS f

/-- C9 counterexample: the claim says the normalizer output never
contains underscores, but Python's `\w` (and hence `_PUNCT_RX`) retains
them: `normalize("a_b") = "a_b"`. -/
theorem claim_C9_counterexample :
    normalize_token "a_b" = "a_b" ∧ '_' ∈ (normalize_token "a_b").data := by
  constructor
  · decide
  · decide

/-- The substitution chain of `_post_token_rules`, spelled out without
the intermediate `let` names. -/
theorem post_token_rulesL_chain (l : List Char) :
    post_token_rulesL l =
      pyStripL (collapseWs (reSubWordL ("fed".data) ("federal".data)
        (reSubGapL ("fed".data) ("states".data) ("federated states".data)
          (reSubGapL ("fed".data) ("sts".data) ("federated states".data)
            (pyReplaceL ("dem people s".data) ("democratic peoples".data)
              (pyReplaceL ("dem peoples".data) ("democratic peoples".data)
                (reSubWordL ("islamic rep".data) ("islamic republic".data)
                  (reSubWordL ("arab rep".data) ("arab republic".data)
                    (reSubWordL ("rep of".data) ("republic of".data)
                      (reSubWordL ("rep".data) ("republic".data)
                        (reSubWordL ("dem".data) ("democratic".data)
                          (pyReplaceL ['&'] ("and".data) l)))))))))))) := rfl

/-- The characters of a normalized token are those of the post-rules
applied to the pre-normalized input. -/
theorem normalize_token_data (s : String) :
    (normalize_token s).data = post_token_rulesL (normalize_preL s.data) := by
  rw [show normalize_token s =
    String.mk (post_token_rulesL (normalize_preL s.data)) from rfl]

set_option maxHeartbeats 1000000 in
/-- C9 amended: for every ASCII input string the normalizer output
consists only of lowercase ASCII letters, ASCII digits, underscores and
spaces, with consecutive whitespace collapsed to single spaces and no
leading or trailing whitespace.  The ASCII hypothesis is needed because
Python's `\w` is Unicode-aware: a non-ASCII word character such as `ж`
passes through the punctuation strip in the program, so no ASCII-only
guarantee holds for arbitrary input; on ASCII input the embedding's
character classes coincide exactly with Python's. -/
theorem claim_C9_amended (s : String)
    (_hascii : ∀ c ∈ s.data, c.toNat < 128) :
    (∀ c ∈ (normalize_token s).data, isOutChar c = true ∨ c = ' ') ∧
    List.Chain' (fun a b => ¬(a = ' ' ∧ b = ' ')) (normalize_token s).data ∧
    (normalize_token s).data.head? ≠ some ' ' ∧
    (normalize_token s).data.getLast? ≠ some ' ' := by
  have h0 := normalize_preL_goodWS s.data
  have h1 := pyReplaceL_goodWS ['&'] ("and".data) _ (by decide) h0
  have h2 := reSubWordL_goodWS ("dem".data) ("democratic".data) _ (by decide) h1
  have h3 := reSubWordL_goodWS ("rep".data) ("republic".data) _ (by decide) h2
  have h4 := reSubWordL_goodWS ("rep of".data) ("republic of".data) _ (by decide) h3
  have h5 := reSubWordL_goodWS ("arab rep".data) ("arab republic".data) _
    (by decide) h4
  have h6 := reSubWordL_goodWS ("islamic rep".data) ("islamic republic".data) _
    (by decide) h5
  have h7 := pyReplaceL_goodWS ("dem peoples".data) ("democratic peoples".data) _
    (by decide) h6
  have h8 := pyReplaceL_goodWS ("dem people s".data) ("democratic peoples".data) _
    (by decide) h7
  have h9 := reSubGapL_goodWS ("fed".data) ("sts".data) ("federated states".data) _
    (by decide) h8
  have h10 := reSubGapL_goodWS ("fed".data) ("states".data)
    ("federated states".data) _ (by decide) h9
  have h11 := reSubWordL_goodWS ("fed".data) ("federal".data) _ (by decide) h10
  rw [normalize_token_data, post_token_rulesL_chain]
  exact tidy_strip_collapse _ h11

/-- C9 witness: the theorem applied to an ASCII input exercising case
folding, the underscore, whitespace collapse and trimming. -/
theorem claim_C9_witness :
    (∀ c ∈ ("  Hello   World_1 " : String).data, c.toNat < 128) ∧
    ((∀ c ∈ (normalize_token "  Hello   World_1 ").data,
        isOutChar c = true ∨ c = ' ') ∧
     List.Chain' (fun a b => ¬(a = ' ' ∧ b = ' '))
       (normalize_token "  Hello   World_1 ").data ∧
     (normalize_token "  Hello   World_1 ").data.head? ≠ some ' ' ∧
     (normalize_token "  Hello   World_1 ").data.getLast? ≠ some ' ') :=
  ⟨by decide, claim_C9_amended "  Hello   World_1 " (by decide)⟩

end Claims
